import Mathlib

/-!
# Verification of the N3DS capture card core (py_n3ds_capture.py)

A shallow embedding of the protocol and demultiplexing core of
`src/py_n3ds_capture.py` and proofs of the specified properties.

Modelling conventions:
* Python module constants become Lean `def`s of the same name.
* `N3DSCaptureCard._grab_frame` is stateful only through `self.device` and the
  outcomes of the two USB transfers; it is embedded as a pure function over an
  explicit description of those outcomes.
* `N3DSCaptureCard.device_init` mutates `self.device` / `self.interface`; it is
  embedded as explicit state passing over those two fields, with the results of
  the USB library calls (`usb.core.find`, `set_configuration`, the interface
  scan, `claim_interface`, the arm transfer) supplied as an environment.
* Python `array` byte buffers become `List Nat`; Python slices become
  `drop`/`take` combinations.
* Python `float` time values become `ℚ`: the fps logic only compares and
  divides, so exactness of the embedding is not affected.
-/

namespace N3DSCapture

/-- `AUDIO_SAMPLE_SIZE = 2188` (bytes), line 33 of the source. -/
def AUDIO_SAMPLE_SIZE : Nat := 2188

/-- `FRAME_WIDTH = 240`, line 37. -/
def FRAME_WIDTH : Nat := 240

/-- `FRAME_HEIGHT = 720`, line 38. -/
def FRAME_HEIGHT : Nat := 720

/-- `IMAGE_SIZE = FRAME_WIDTH * FRAME_HEIGHT * 3`, line 39 (RGB24). -/
def IMAGE_SIZE : Nat := FRAME_WIDTH * FRAME_HEIGHT * 3

/-- `FRAME_SIZE = IMAGE_SIZE + AUDIO_SAMPLE_SIZE`, line 40. -/
def FRAME_SIZE : Nat := IMAGE_SIZE + AUDIO_SAMPLE_SIZE

/-- `N3DS_DISPLAY1_WIDTH = 400`, line 42. -/
def N3DS_DISPLAY1_WIDTH : Nat := 400

/-- `N3DS_DISPLAY2_WIDTH = 320`, line 43. -/
def N3DS_DISPLAY2_WIDTH : Nat := 320

/-- `N3DS_DISPLAY_HEIGHT = FRAME_WIDTH`, line 44. -/
def N3DS_DISPLAY_HEIGHT : Nat := FRAME_WIDTH

/-- `DISPLAY2_X = (N3DS_DISPLAY1_WIDTH - N3DS_DISPLAY2_WIDTH) // 2`, line 45. -/
def DISPLAY2_X : Nat := (N3DS_DISPLAY1_WIDTH - N3DS_DISPLAY2_WIDTH) / 2

theorem IMAGE_SIZE_eq : IMAGE_SIZE = 518400 := rfl

theorem FRAME_SIZE_eq : FRAME_SIZE = 520588 := rfl

/-- The transfer-buffer sizing formula of line 144,
`transfer_size = (FRAME_SIZE + 0x1ff) & ~0x1ff`, as a function of the frame
byte count.  On a nonnegative arbitrary-precision Python integer, `& ~0x1ff`
clears the nine low bits, i.e. subtracts the remainder modulo `0x200`. -/
def transfer_size_of (fbc : Nat) : Nat :=
  (fbc + 0x1ff) - (fbc + 0x1ff) % 0x200

/-- The concrete `transfer_size` computed in `__init__` (line 144). -/
def transfer_size : Nat := transfer_size_of FRAME_SIZE

/-- `CaptureResult` enum, lines 62–67. -/
inductive CaptureResult
  | SKIP
  | OK
  | ERROR
deriving DecidableEq

/-- Outcome of the `_vend_out` control transfer inside `_grab_frame`
(line 293) when a device handle is present: either pyusb raises
`usb.core.USBTimeoutError`, or the call returns a transfer result `n`
(negative values are libusb error codes, see the `_vend_out` docstring). -/
inductive CtrlOutcome
  | timeout
  | result (n : Int)
deriving DecidableEq

/-- Outcome of the `_bulk_in` read inside `_grab_frame` (line 304): either
pyusb raises `usb.core.USBTimeoutError`, or the read completes having placed
`count` bytes into the preallocated buffer and returns that count. -/
inductive BulkOutcome
  | timeout
  | filled (count : Nat)
deriving DecidableEq

/-- `N3DSCaptureCard._grab_frame`, lines 289–309.  When `self.device` is
`None`, `self.device.ctrl_transfer` raises `AttributeError`, which the
function catches and maps to `ERROR`.  Otherwise: a control-transfer timeout
is `SKIP`; a negative control result is `ERROR`; a bulk-read timeout is
`SKIP`; in every remaining case the function returns `OK` — the byte count
returned by `_bulk_in` is discarded. -/
def grab_frame (device : Option Unit) (ctrl : CtrlOutcome) (bulk : BulkOutcome) :
    CaptureResult :=
  match device with
  | none => CaptureResult.ERROR
  | some _ =>
    match ctrl with
    | CtrlOutcome.timeout => CaptureResult.SKIP
    | CtrlOutcome.result n =>
      if n < 0 then CaptureResult.ERROR
      else
        match bulk with
        | BulkOutcome.timeout => CaptureResult.SKIP
        | BulkOutcome.filled _ => CaptureResult.OK

/-- C1, counterexample: with a device present, an arm result of `0` and a bulk
read that completes with `0` bytes — a length strictly below `FRAME_SIZE` —
`_grab_frame` returns `OK`, not `SKIP`: the code never inspects the byte count
returned by `_bulk_in`, so the claimed short-read → `Skip` classification does
not exist. -/
theorem C1_short_read_counterexample :
    (0 : Nat) < FRAME_SIZE ∧
      grab_frame (some ()) (CtrlOutcome.result 0) (BulkOutcome.filled 0) =
        CaptureResult.OK ∧
      grab_frame (some ()) (CtrlOutcome.result 0) (BulkOutcome.filled 0) ≠
        CaptureResult.SKIP := by
  refine ⟨by decide, rfl, by decide⟩

/-- C1, amended: the outcome of an acquisition attempt whose bulk read
completes (does not time out) is independent of the returned byte count and is
never `SKIP`; in particular, with a non-negative arm result every completed
read — of any length, including lengths below `FRAME_SIZE` — yields `OK` and
the buffer is forwarded. -/
theorem C1_no_length_check (m : Int) (n k : Nat) :
    grab_frame (some ()) (CtrlOutcome.result m) (BulkOutcome.filled n) =
      grab_frame (some ()) (CtrlOutcome.result m) (BulkOutcome.filled k) ∧
    grab_frame (some ()) (CtrlOutcome.result m) (BulkOutcome.filled n) ≠
      CaptureResult.SKIP ∧
    grab_frame (some ()) (CtrlOutcome.result 0) (BulkOutcome.filled n) =
      CaptureResult.OK := by
  unfold grab_frame
  by_cases h : m < 0 <;> simp [h]

/-- C4: full characterisation of the outcome classification of `_grab_frame`:
`SKIP` exactly on a control-transfer timeout or a bulk-read timeout after a
non-negative arm result; `ERROR` exactly on a missing device handle
(`AttributeError`) or a negative arm result; `OK` exactly when the arm result
is non-negative and the bulk read completes.  Since `grab_frame` is a total
function into the three-variant `CaptureResult`, exactly one outcome is
produced per attempt. -/
theorem C4_outcome_classification (device : Option Unit) (ctrl : CtrlOutcome)
    (bulk : BulkOutcome) :
    (grab_frame device ctrl bulk = CaptureResult.SKIP ↔
      ((∃ u, device = some u) ∧
        (ctrl = CtrlOutcome.timeout ∨
          ∃ n, ctrl = CtrlOutcome.result n ∧ 0 ≤ n ∧ bulk = BulkOutcome.timeout))) ∧
    (grab_frame device ctrl bulk = CaptureResult.ERROR ↔
      (device = none ∨ ∃ n, ctrl = CtrlOutcome.result n ∧ n < 0)) ∧
    (grab_frame device ctrl bulk = CaptureResult.OK ↔
      ((∃ u, device = some u) ∧
        ∃ n, ctrl = CtrlOutcome.result n ∧ 0 ≤ n ∧ ∃ k, bulk = BulkOutcome.filled k)) := by
  cases device with
  | none => simp [grab_frame]
  | some u =>
    cases ctrl with
    | timeout => cases bulk <;> simp [grab_frame]
    | result n =>
      by_cases h : n < 0
      · cases bulk <;> simp [grab_frame, h, not_le.mpr h]
      · cases bulk <;> simp [grab_frame, h, not_lt.mp h]

/-- C10: a capture attempt made while no device handle is held returns
`ERROR` for every behaviour of the two transfers — the `AttributeError` on
`None.ctrl_transfer` is caught at line 297 and mapped to `ERROR`, so the
acquisition step is total in the disconnected state. -/
theorem C10_no_device_is_error (ctrl : CtrlOutcome) (bulk : BulkOutcome) :
    grab_frame none ctrl bulk = CaptureResult.ERROR := rfl

/-- C5: for every auxiliary byte count, the transfer size computed by the
line-144 formula from the resulting frame byte count is a multiple of 512 and
at least the frame byte count; the concrete buffer allocated in `__init__`
has size 520704. -/
theorem C5_transfer_size_padding (aux : Nat) :
    transfer_size_of (IMAGE_SIZE + aux) % 512 = 0 ∧
    IMAGE_SIZE + aux ≤ transfer_size_of (IMAGE_SIZE + aux) ∧
    transfer_size = 520704 := by
  refine ⟨?_, ?_, rfl⟩ <;>
    · unfold transfer_size_of
      omega

/-- Python slice `l[a:b]` on a byte buffer (for `0 ≤ a ≤ b`): the elements at
indices `a, …, b-1`, clamped to the buffer length. -/
def pySlice (a b : Nat) (l : List Nat) : List Nat :=
  (l.drop a).take (b - a)

/-- `frame_buf[:IMAGE_SIZE]`, the image region forwarded to `_show_frame`
(line 359). -/
def image_view (buf : List Nat) : List Nat :=
  pySlice 0 IMAGE_SIZE buf

/-- `frame_buf[IMAGE_SIZE:FRAME_SIZE]`, the audio region forwarded to
`push_sample` (line 357). -/
def audio_view (buf : List Nat) : List Nat :=
  pySlice IMAGE_SIZE FRAME_SIZE buf

/-- C3: on any buffer holding at least `FRAME_SIZE` bytes, the demux split of
`_capture_and_show_frames` produces an image view of exactly `IMAGE_SIZE`
bytes and an audio view of exactly `FRAME_SIZE - IMAGE_SIZE` bytes; their
lengths sum to `FRAME_SIZE` and their concatenation is exactly the first
`FRAME_SIZE` bytes of the buffer. -/
theorem C3_demux_round_trip (buf : List Nat) (h : FRAME_SIZE ≤ buf.length) :
    (image_view buf).length = IMAGE_SIZE ∧
    (audio_view buf).length = FRAME_SIZE - IMAGE_SIZE ∧
    (image_view buf).length + (audio_view buf).length = FRAME_SIZE ∧
    image_view buf ++ audio_view buf = buf.take FRAME_SIZE := by
  have himg : IMAGE_SIZE ≤ FRAME_SIZE := by
    rw [IMAGE_SIZE_eq, FRAME_SIZE_eq]; omega
  have h1 : (image_view buf).length = IMAGE_SIZE := by
    simp only [image_view, pySlice, List.drop_zero, Nat.sub_zero, List.length_take]
    omega
  have h2 : (audio_view buf).length = FRAME_SIZE - IMAGE_SIZE := by
    simp only [audio_view, pySlice, List.length_take, List.length_drop]
    omega
  refine ⟨h1, h2, by omega, ?_⟩
  have hsplit : FRAME_SIZE = IMAGE_SIZE + (FRAME_SIZE - IMAGE_SIZE) := by omega
  calc image_view buf ++ audio_view buf
      = buf.take IMAGE_SIZE ++ (buf.drop IMAGE_SIZE).take (FRAME_SIZE - IMAGE_SIZE) := by
        simp [image_view, audio_view, pySlice]
    _ = buf.take (IMAGE_SIZE + (FRAME_SIZE - IMAGE_SIZE)) := (List.take_add _ _ _).symm
    _ = buf.take FRAME_SIZE := by rw [← hsplit]

/-- Witness for C3 at the concrete session buffer: `transfer_size = 520704`
zero bytes, as allocated at line 145. -/
theorem C3_demux_round_trip_witness :
    (image_view (List.replicate 520704 0)).length = IMAGE_SIZE ∧
    (audio_view (List.replicate 520704 0)).length = FRAME_SIZE - IMAGE_SIZE ∧
    (image_view (List.replicate 520704 0)).length +
      (audio_view (List.replicate 520704 0)).length = FRAME_SIZE ∧
    image_view (List.replicate 520704 0) ++ audio_view (List.replicate 520704 0) =
      (List.replicate 520704 0).take FRAME_SIZE :=
  C3_demux_round_trip (List.replicate 520704 0)
    (by rw [List.length_replicate, FRAME_SIZE_eq]; omega)

/-- Environment of one `device_init` call: the results of the USB library
calls it makes.  `found` is the result of `usb.core.find`; `set_config_ok`
is false when `set_configuration` raises `IOError`; `scan` is the first
interface whose `bInterfaceNumber` equals `CAPTURE_INTERFACE`, if any;
`claim_ok` / `vend_ok` are false when `claim_interface` / the arm control
transfer raise `IOError` (every `usb.core.USBError` is an `OSError` alias
`IOError`, caught at line 262). -/
structure InitEnv where
  found : Option Unit
  set_config_ok : Bool
  scan : Option Unit
  claim_ok : Bool
  vend_ok : Bool

/-- The two session fields `self.device` and `self.interface` mutated by
`device_init` and `close_capture`. -/
structure SessionFields where
  device : Option Unit
  interface : Option Unit
deriving DecidableEq

/-- `N3DSCaptureCard.device_init`, lines 235–263, as explicit state passing
over the `device` / `interface` fields.  The assignment
`self.device = usb.core.find(...)` happens before any failure check, so a
failing call can leave the handle stored.  The interface scan assigns
`self.interface` only on a match (first match wins), keeping any previous
value otherwise.  An `IOError` from `set_configuration`, `claim_interface`
or the arm transfer is caught and turned into `return False` with the fields
left as they were at the raise point. -/
def device_init (env : InitEnv) (s : SessionFields) : Bool × SessionFields :=
  let s1 : SessionFields := { s with device := env.found }
  match env.found with
  | none => (false, s1)
  | some _ =>
    if env.set_config_ok = false then (false, s1)
    else
      let s2 : SessionFields :=
        { s1 with
          interface := match env.scan with
            | some i => some i
            | none => s1.interface }
      match s2.interface with
      | none => (false, s2)
      | some _ =>
        if env.claim_ok = false then (false, s2)
        else if env.vend_ok = false then (false, s2)
        else (true, s2)

/-- C2, counterexample: the device is found and configured but no interface
matches `CAPTURE_INTERFACE`.  `device_init` returns `False`, yet the device
handle remains stored in `self.device` — the session is not left in the
claimed handle-free disconnected state. -/
theorem C2_failed_open_keeps_handle_counterexample :
    (device_init ⟨some (), true, none, true, true⟩ ⟨none, none⟩).1 = false ∧
    (device_init ⟨some (), true, none, true, true⟩ ⟨none, none⟩).2.device = some () := by
  exact ⟨rfl, rfl⟩

/-- C2, amended: called on a fresh session (no stored handle or interface, the
state at every reachable call site), `device_init` returns `True` exactly when
discovery, configuration, the interface scan, the interface claim and the arm
command all succeed — so every failing execution returns `False` — but the
`device` field always ends up holding the discovery result, so a failure after
a successful discovery leaves the device handle stored rather than clearing
it. -/
theorem C2_device_init_success_characterization (env : InitEnv) :
    ((device_init env ⟨none, none⟩).1 = true ↔
      (env.found.isSome = true ∧ env.set_config_ok = true ∧
        env.scan.isSome = true ∧ env.claim_ok = true ∧ env.vend_ok = true)) ∧
    (device_init env ⟨none, none⟩).2.device = env.found := by
  obtain ⟨f, c, sc, cl, v⟩ := env
  cases f <;> cases c <;> cases sc <;> cases cl <;> cases v <;>
    simp [device_init]

/-- The session fields touched by `close_capture` and the `frame_count`
success counter, instrumented with effect counters: `releases` counts
`usb.util.release_interface` calls, `disposes` counts
`usb.util.dispose_resources` calls, and `closes` counts invocations of
`close_capture` itself.  `device` / `interface` are `true` when the
corresponding handle is held. -/
structure CardState where
  device : Bool
  interface : Bool
  frame_count : Nat
  releases : Nat
  disposes : Nat
  closes : Nat
deriving DecidableEq

/-- `N3DSCaptureCard.close_capture`, lines 266–278: only when a device handle
is held does it release the claimed interface (if any), clear it, dispose the
handle and clear it; the trailing audio close / black frame / caption update
carry no session state.  Every path is a plain field update — no exception is
possible. -/
def close_capture (s : CardState) : CardState :=
  if s.device then
    if s.interface then
      { s with releases := s.releases + 1, interface := false,
               disposes := s.disposes + 1, device := false,
               closes := s.closes + 1 }
    else
      { s with disposes := s.disposes + 1, device := false,
               closes := s.closes + 1 }
  else
    { s with closes := s.closes + 1 }

/-- `N3DSCaptureCard._capture_and_show_frames`, lines 348–366, restricted to
the session fields: on `OK` the decoded views are forwarded to the audio and
video sinks and `frame_count` is incremented; on `ERROR` the card calls
`close_capture`; on `SKIP` nothing happens. -/
def capture_and_show (res : CaptureResult) (s : CardState) : CardState :=
  match res with
  | CaptureResult.OK => { s with frame_count := s.frame_count + 1 }
  | CaptureResult.ERROR => close_capture s
  | CaptureResult.SKIP => s

/-- Folding the per-iteration body over a list of attempt outcomes. -/
def run_outcomes (rs : List CaptureResult) (s : CardState) : CardState :=
  rs.foldl (fun t r => capture_and_show r t) s

theorem close_capture_frame_count (s : CardState) :
    (close_capture s).frame_count = s.frame_count := by
  unfold close_capture
  by_cases hd : s.device <;> by_cases hi : s.interface <;> simp [hd, hi]

/-- C6: over every sequence of attempt outcomes, the success frame counter
grows by exactly the number of `OK` outcomes — `SKIP` and `ERROR` never
increment it. -/
theorem C6_frame_count_counts_ok (rs : List CaptureResult) (s : CardState) :
    (run_outcomes rs s).frame_count = s.frame_count + rs.count CaptureResult.OK := by
  induction rs generalizing s with
  | nil => simp [run_outcomes]
  | cons r t ih =>
    have step : run_outcomes (r :: t) s = run_outcomes t (capture_and_show r s) := rfl
    rw [step, ih, List.count_cons]
    cases r with
    | SKIP => simp [capture_and_show]
    | OK =>
      simp only [capture_and_show]
      simp
      omega
    | ERROR => simp [capture_and_show, close_capture_frame_count]

theorem run_errors_after_closed (n : Nat) (s : CardState) (h : s.device = false) :
    run_outcomes (List.replicate n CaptureResult.ERROR) s =
      { s with closes := s.closes + n } := by
  induction n generalizing s with
  | zero => simp [run_outcomes]
  | succ m ih =>
    have step :
        run_outcomes (List.replicate (m + 1) CaptureResult.ERROR) s =
          run_outcomes (List.replicate m CaptureResult.ERROR) (close_capture s) := rfl
    have hclose : close_capture s = { s with closes := s.closes + 1 } := by
      simp [close_capture, h]
    rw [step, hclose, ih { s with closes := s.closes + 1 } h]
    congr 1
    simp
    omega

/-- C7: `close_capture` is idempotent — a second call after any call changes
nothing but the invocation counter (no release, no dispose, hence no error) —
and a run of `n + 1` consecutive `ERROR` outcomes invokes `close_capture`
exactly `n + 1` times while releasing the interface at most once (exactly once
when a device and an interface were held) and disposing the handle at most
once (exactly once when a device was held).  Every involved function is total:
no exception can be raised on any repeated close. -/
theorem C7_close_idempotent (s : CardState) (n : Nat) :
    (close_capture (close_capture s) =
      { close_capture s with closes := (close_capture s).closes + 1 }) ∧
    (run_outcomes (List.replicate (n + 1) CaptureResult.ERROR) s).closes =
      s.closes + (n + 1) ∧
    (run_outcomes (List.replicate (n + 1) CaptureResult.ERROR) s).releases =
      s.releases + (if s.device && s.interface then 1 else 0) ∧
    (run_outcomes (List.replicate (n + 1) CaptureResult.ERROR) s).disposes =
      s.disposes + (if s.device then 1 else 0) := by
  have hstep :
      run_outcomes (List.replicate (n + 1) CaptureResult.ERROR) s =
        run_outcomes (List.replicate n CaptureResult.ERROR) (close_capture s) := rfl
  have hdev : (close_capture s).device = false := by
    unfold close_capture
    by_cases hd : s.device <;> by_cases hi : s.interface <;> simp [hd, hi]
  have hrun := run_errors_after_closed n (close_capture s) hdev
  constructor
  · unfold close_capture
    by_cases hd : s.device <;> by_cases hi : s.interface <;> simp [hd, hi]
  · rw [hstep, hrun]
    unfold close_capture
    by_cases hd : s.device <;> by_cases hi : s.interface <;>
      simp [hd, hi] <;> omega

/-- The fields read and written by `_calculate_fps` (lines 332–345):
`self.last_fps_update_time`, `self.start_time`, `self.frame_count`. -/
structure FpsState where
  last_fps_update_time : ℚ
  start_time : ℚ
  frame_count : Nat

/-- `N3DSCaptureCard._calculate_fps`, lines 332–345: when at least two
seconds have passed since the last report, it computes
`frame_count / (current_time - start_time)` (`0` when no time has elapsed,
guarding the division) and updates only `last_fps_update_time`; otherwise it
reports nothing and changes nothing.  The reported value is modelled as the
first component (`some fps` = the title update at line 343). -/
def calculate_fps (current_time : ℚ) (s : FpsState) : Option ℚ × FpsState :=
  if 2 ≤ current_time - s.last_fps_update_time then
    let elapsed_time := current_time - s.start_time
    let fps : ℚ := if 0 < elapsed_time then (s.frame_count : ℚ) / elapsed_time else 0
    (some fps, { s with last_fps_update_time := current_time })
  else
    (none, s)

/-- C8: whenever the two-second reporting cadence has elapsed,
`_calculate_fps` reports the cumulative average `frame_count` divided by the
time since the session start (`0` when no time has elapsed, never a division
error), and it resets only the report timer: the frame counter and the
session start time are unchanged. -/
theorem C8_cumulative_fps (current_time : ℚ) (s : FpsState)
    (h : 2 ≤ current_time - s.last_fps_update_time) :
    (calculate_fps current_time s).1 =
      some (if 0 < current_time - s.start_time then
              (s.frame_count : ℚ) / (current_time - s.start_time)
            else 0) ∧
    (calculate_fps current_time s).2.frame_count = s.frame_count ∧
    (calculate_fps current_time s).2.start_time = s.start_time ∧
    (calculate_fps current_time s).2.last_fps_update_time = current_time := by
  simp [calculate_fps, h]

/-- Witness for C8, the spec's nominal scenario: 120 frames over a simulated
2-second span report exactly 60 fps, the counter and start time survive, and
only the report timer moves. -/
theorem C8_cumulative_fps_witness :
    (calculate_fps 2 ⟨0, 0, 120⟩).1 = some 60 ∧
    (calculate_fps 2 ⟨0, 0, 120⟩).2.frame_count = 120 ∧
    (calculate_fps 2 ⟨0, 0, 120⟩).2.start_time = 0 ∧
    (calculate_fps 2 ⟨0, 0, 120⟩).2.last_fps_update_time = 2 := by
  obtain ⟨h1, h2, h3, h4⟩ := C8_cumulative_fps 2 ⟨0, 0, 120⟩ (by norm_num)
  refine ⟨?_, h2, h3, h4⟩
  rw [h1]
  norm_num

/-- `self.display_scale = 1.0` as set in `__init__` (line 160). -/
def display_scale : ℚ := 1

/-- `self.display1_area` as set in `__init__` (line 168): the primary panel
crop `(x, y, w, h)` on the rotated frame. -/
def display1_area : ℚ × ℚ × ℚ × ℚ :=
  (0, 0, (N3DS_DISPLAY1_WIDTH : ℚ) * display_scale,
    (N3DS_DISPLAY_HEIGHT : ℚ) * display_scale)

/-- `self.display2_area` as set in `__init__` (line 170): the secondary panel
crop `(x, y, w, h)` on the rotated frame. -/
def display2_area : ℚ × ℚ × ℚ × ℚ :=
  ((N3DS_DISPLAY1_WIDTH : ℚ) * display_scale, 0,
    (N3DS_DISPLAY2_WIDTH : ℚ) * display_scale,
    (N3DS_DISPLAY_HEIGHT : ℚ) * display_scale)

/-- `self.display2_dest` as set in `__init__` (line 171): the blit
destination of the secondary panel. -/
def display2_dest : ℚ × ℚ :=
  ((DISPLAY2_X : ℚ) * display_scale, (N3DS_DISPLAY_HEIGHT : ℚ) * display_scale)

/-- C9: at the initial scale, the primary crop is `(0, 0, 400, 240)` and the
secondary crop `(400, 0, 320, 240)` on the rotated 720×240 frame; the two
panel widths sum to the rotated width `FRAME_HEIGHT = 720`; and the secondary
panel's destination is horizontally centred at
`x = (400 - 320) / 2 = 40`. -/
theorem C9_panel_geometry :
    display1_area = (0, 0, 400, 240) ∧
    display2_area = (400, 0, 320, 240) ∧
    N3DS_DISPLAY1_WIDTH + N3DS_DISPLAY2_WIDTH = FRAME_HEIGHT ∧
    DISPLAY2_X = (N3DS_DISPLAY1_WIDTH - N3DS_DISPLAY2_WIDTH) / 2 ∧
    DISPLAY2_X = 40 ∧
    display2_dest = (40, 240) := by
  refine ⟨?_, ?_, rfl, rfl, rfl, ?_⟩ <;>
    simp [display1_area, display2_area, display2_dest, display_scale,
      N3DS_DISPLAY1_WIDTH, N3DS_DISPLAY2_WIDTH, N3DS_DISPLAY_HEIGHT,
      DISPLAY2_X, FRAME_WIDTH]

end N3DSCapture
